import Mathlib

/-!
Verification of the rq fluent HTTP client library: a shallow embedding of its
retry/backoff engine, interceptor pipeline, middleware chain, request builder
and response accessors, with theorems checking the specification claims.

Durations are modelled as integers (nanoseconds, the unit of the host
runtime duration type).  Floating-point values (the backoff multiplier and
the jitter fraction) are modelled as exact rationals; conversions from
float to the integer duration type truncate toward zero, modelled by
`truncZ`.  External collaborators (URL parsing, wire-request construction,
the transport exchange, JSON encoding and decoding) are passed in as
explicit parameters, since the library delegates them to the standard
library.
-/

/-- Decidable equality of fallible results. -/
instance {α β : Type} [DecidableEq α] [DecidableEq β] : DecidableEq (Except α β)
  | Except.error a, Except.error b =>
    if h : a = b then isTrue (by rw [h])
    else isFalse (by intro hc; injection hc; contradiction)
  | Except.error _, Except.ok _ => isFalse (by intro hc; exact Except.noConfusion hc)
  | Except.ok _, Except.error _ => isFalse (by intro hc; exact Except.noConfusion hc)
  | Except.ok a, Except.ok b =>
    if h : a = b then isTrue (by rw [h])
    else isFalse (by intro hc; injection hc; contradiction)

namespace RQ

/-- Truncation toward zero: the conversion of a float value to the integer
duration type. -/
def truncZ (q : ℚ) : ℤ := if 0 ≤ q then ⌊q⌋ else ⌈q⌉

/-- Model of the execution client: the transport is kept abstract (an
optional identifier), together with the timeout, cookie jar and redirect
policy fields that matter to the claims. -/
structure GoClient where
  transport : Option Nat
  timeout : ℤ
  jar : Option Nat
  checkRedirect : Option Nat
deriving Repr, DecidableEq

/-- The package-level default client: a 30 second timeout and zero values
elsewhere. -/
def defaultClient : GoClient :=
  { transport := none, timeout := 30000000000, jar := none, checkRedirect := none }

/-- The request builder state.  The body is modelled by what reading its
reader would yield: either a read error or the buffered bytes (bytes are
modelled as a string).  `err` is the accumulated builder error. -/
structure Request where
  client : GoClient
  method : String
  url : String
  headers : List (String × String)
  queryParams : List (String × String)
  body : Option (Except String String)
  timeout : ℤ
  err : Option String
deriving Repr, DecidableEq

/-- The response wrapper: status code, fully buffered body bytes, and the
optional terminal error.  When the error is set the underlying wire
response may be absent; its status code is then the zero value 0. -/
structure Response where
  StatusCode : ℤ
  body : String
  err : Option String
deriving Repr, DecidableEq

/-- `New` returns a fresh request with default method GET and the default
client. -/
def Request.new : Request :=
  { client := defaultClient, method := "GET", url := "", headers := [],
    queryParams := [], body := none, timeout := 0, err := none }

/-- Adding a value to a header or query multimap. -/
def kvAdd (hs : List (String × String)) (k v : String) : List (String × String) :=
  hs ++ [(k, v)]

/-- Setting a key of a header or query multimap to a single value,
replacing previous entries of the key. -/
def kvSet (hs : List (String × String)) (k v : String) : List (String × String) :=
  hs.filter (fun p => p.1 ≠ k) ++ [(k, v)]

/-- `Request.Method` sets the HTTP method (no-op when poisoned). -/
def Request.Method (r : Request) (m : String) : Request :=
  if r.err.isSome then r else { r with method := m }

/-- `Request.URL` sets the target URL (no-op when poisoned). -/
def Request.URL (r : Request) (u : String) : Request :=
  if r.err.isSome then r else { r with url := u }

/-- `Request.Client` sets a custom client (no-op when poisoned). -/
def Request.Client (r : Request) (c : GoClient) : Request :=
  if r.err.isSome then r else { r with client := c }

/-- `Request.Timeout` sets the per-request timeout (no-op when poisoned). -/
def Request.Timeout (r : Request) (t : ℤ) : Request :=
  if r.err.isSome then r else { r with timeout := t }

/-- `Request.Header` adds one header value (no-op when poisoned). -/
def Request.Header (r : Request) (k v : String) : Request :=
  if r.err.isSome then r else { r with headers := kvAdd r.headers k v }

/-- `Request.Headers` sets several headers at once; the map argument is
modelled as a list of key-value pairs (no-op when poisoned). -/
def Request.Headers (r : Request) (hs : List (String × String)) : Request :=
  if r.err.isSome then r
  else { r with headers := hs.foldl (fun acc p => kvSet acc p.1 p.2) r.headers }

/-- `Request.QueryParam` adds one query parameter (no-op when poisoned). -/
def Request.QueryParam (r : Request) (k v : String) : Request :=
  if r.err.isSome then r else { r with queryParams := kvAdd r.queryParams k v }

/-- `Request.QueryParams` sets several query parameters (no-op when
poisoned). -/
def Request.QueryParams (r : Request) (ps : List (String × String)) : Request :=
  if r.err.isSome then r
  else { r with queryParams := ps.foldl (fun acc p => kvSet acc p.1 p.2) r.queryParams }

/-- `Request.Body` sets the body from a reader, modelled by the outcome of
reading it (no-op when poisoned). -/
def Request.Body (r : Request) (b : Except String String) : Request :=
  if r.err.isSome then r else { r with body := some b }

/-- `Request.BodyString` sets a string body (no-op when poisoned). -/
def Request.BodyString (r : Request) (s : String) : Request :=
  if r.err.isSome then r else { r with body := some (Except.ok s) }

/-- `Request.BodyBytes` sets a byte-slice body (no-op when poisoned). -/
def Request.BodyBytes (r : Request) (s : String) : Request :=
  if r.err.isSome then r else { r with body := some (Except.ok s) }

/-- `Request.BodyJSON` encodes a value as JSON; the standard-library
encoder outcome is passed as `enc`.  On encoder failure the request is
poisoned; otherwise the body and the content type header are set (no-op
when already poisoned). -/
def Request.BodyJSON (r : Request) (enc : Except String String) : Request :=
  if r.err.isSome then r
  else
    match enc with
    | Except.error e => { r with err := some ("failed to marshal JSON: " ++ e) }
    | Except.ok data =>
        { r with body := some (Except.ok data),
                 headers := kvSet r.headers "Content-Type" "application/json" }

/-- `Request.BodyForm` sets a form body; the URL-encoded payload computed
by the standard library is passed as `encoded` (no-op when poisoned). -/
def Request.BodyForm (r : Request) (encoded : String) : Request :=
  if r.err.isSome then r
  else { r with body := some (Except.ok encoded),
                headers := kvSet r.headers "Content-Type" "application/x-www-form-urlencoded" }

/-! ## Execution: DoContext -/

/-- The external collaborators consulted by one execution: URL parsing,
wire-request construction, and the client exchange.  The exchange returns
either a transport error, or a status code together with the outcome of
reading the response body. -/
structure HttpEnv where
  parseURL : String → Except String Unit
  newRequest : String → String → Except String Unit
  run : GoClient → Request → Except String (ℤ × Except String String)

/-- The client actually used by one execution: when a per-request timeout
is set, a fresh client is built carrying only the original transport and
the new timeout (zero values elsewhere); otherwise the request client is
used as is. -/
def effectiveClient (r : Request) : GoClient :=
  if 0 < r.timeout then
    { transport := r.client.transport, timeout := r.timeout,
      jar := none, checkRedirect := none }
  else r.client

/-- `DoContext`: executes the request once.  Returns the response together
with the number of times the client exchange was invoked. -/
def doContext (env : HttpEnv) (r : Request) : Response × Nat :=
  match r.err with
  | some e => ({ StatusCode := 0, body := "", err := some e }, 0)
  | none =>
    match env.parseURL r.url with
    | Except.error e =>
        ({ StatusCode := 0, body := "",
           err := some ("invalid URL: " ++ r.url ++ ": " ++ e) }, 0)
    | Except.ok _ =>
      match env.newRequest r.method r.url with
      | Except.error e =>
          ({ StatusCode := 0, body := "",
             err := some ("failed to create request: " ++ e) }, 0)
      | Except.ok _ =>
        match env.run (effectiveClient r) r with
        | Except.error e =>
            ({ StatusCode := 0, body := "",
               err := some ("request failed: " ++ e) }, 1)
        | Except.ok (status, Except.error e) =>
            ({ StatusCode := status, body := "",
               err := some ("failed to read body: " ++ e) }, 1)
        | Except.ok (status, Except.ok b) =>
            ({ StatusCode := status, body := b, err := none }, 1)

/-! ## The retry engine -/

/-- Retry behaviour configuration.  Durations are integer nanoseconds; the
multiplier is the exact value of the float field. -/
structure RetryConfig where
  MaxAttempts : ℤ
  Delay : ℤ
  MaxDelay : ℤ
  Multiplier : ℚ
  Jitter : Bool
  RetryIf : Response → Bool

/-- The default retry predicate: retry on any carried error, on 5xx status
codes and on 429. -/
def defaultRetryIf (resp : Response) : Bool :=
  if resp.err.isSome then true
  else decide (500 ≤ resp.StatusCode) || decide (resp.StatusCode = 429)

/-- The default retry configuration. -/
def DefaultRetryConfig : RetryConfig :=
  { MaxAttempts := 3, Delay := 100000000, MaxDelay := 10000000000,
    Multiplier := 2, Jitter := true, RetryIf := defaultRetryIf }

/-- `addJitter`: adds a random amount up to 30 percent of the delay; the
random draw in the unit interval is passed as `u`. -/
def addJitter (u : ℚ) (delay : ℤ) : ℤ :=
  delay + truncZ (u * (delay : ℚ) * (3 / 10))

/-- The outcome of a retry run: the returned response (absent when the
loop body never ran), the number of attempts performed, and the list of
delays actually waited between attempts. -/
structure RetryResult where
  resp : Option Response
  attempts : Nat
  waits : List ℤ
deriving Repr, DecidableEq

/-- The retry loop.  `exec k` is the response of the k-th call of
`DoContext`; `done k` tells whether the cancellation branch wins the race
during the wait after attempt `k`; `u k` is the jitter draw used before
that wait; `ctxErr` is the cancellation error of the context.  `fuel` is
the number of loop iterations still allowed (the loop runs while the
attempt index is below `MaxAttempts`), `attempt` the current index,
`delay` the current delay, `ws` the waits so far. -/
def retryLoop (cfg : RetryConfig) (exec : Nat → Response) (done : Nat → Bool)
    (ctxErr : String) (u : Nat → ℚ) :
    Nat → Nat → ℤ → List ℤ → RetryResult
  | 0, attempt, _, ws => { resp := none, attempts := attempt, waits := ws }
  | fuel + 1, attempt, delay, ws =>
    let resp := exec attempt
    if cfg.RetryIf resp = false then
      { resp := some resp, attempts := attempt + 1, waits := ws }
    else if fuel = 0 then
      { resp := some resp, attempts := attempt + 1, waits := ws }
    else
      let d := if cfg.Jitter then addJitter (u attempt) delay else delay
      if done attempt then
        { resp := some { resp with err := some ctxErr },
          attempts := attempt + 1, waits := ws }
      else
        let d2 := truncZ ((d : ℚ) * cfg.Multiplier)
        let d3 := if cfg.MaxDelay < d2 then cfg.MaxDelay else d2
        retryLoop cfg exec done ctxErr u fuel (attempt + 1) d3 (ws ++ [d])

/-- The error produced by reading the request body upfront, when any. -/
def readBodyErr : Option (Except String String) → Option String
  | some (Except.error e) => some e
  | _ => none

/-- `DoWithRetry`: executes the request with retry logic.  A `none`
configuration selects the default configuration.  A poisoned request, or a
request whose body cannot be read, returns immediately with zero
attempts. -/
def doWithRetry (r : Request) (config : Option RetryConfig)
    (exec : Nat → Response) (done : Nat → Bool) (ctxErr : String)
    (u : Nat → ℚ) : RetryResult :=
  let cfg := config.getD DefaultRetryConfig
  match r.err with
  | some e => { resp := some { StatusCode := 0, body := "", err := some e },
                attempts := 0, waits := [] }
  | none =>
    match readBodyErr r.body with
    | some e => { resp := some { StatusCode := 0, body := "", err := some e },
                  attempts := 0, waits := [] }
    | none => retryLoop cfg exec done ctxErr u cfg.MaxAttempts.toNat 0 cfg.Delay []

/-! ## Backoff functions -/

/-- `ExponentialBackoff`: the float power is converted to the integer
duration type before the multiplication by the base, and the product is
clamped to the ceiling. -/
def ExponentialBackoff (base : ℤ) (multiplier : ℚ) (maxDelay : ℤ) : ℤ → ℤ :=
  fun attempt =>
    let delay := base * truncZ (multiplier ^ attempt)
    if maxDelay < delay then maxDelay else delay

/-- Modelled from the wording of the specification, for comparison with
`ExponentialBackoff`: the delay is the exact product of the base with the
multiplier raised to the attempt index, clamped at the ceiling. -/
def ExponentialBackoffSpec (base : ℤ) (multiplier : ℚ) (maxDelay : ℤ) : ℤ → ℚ :=
  fun attempt => min ((base : ℚ) * multiplier ^ attempt) (maxDelay : ℚ)

/-- `LinearBackoff`: base plus increment times the attempt index, clamped
at the ceiling. -/
def LinearBackoff (base increment maxDelay : ℤ) : ℤ → ℤ :=
  fun attempt =>
    let delay := base + increment * attempt
    if maxDelay < delay then maxDelay else delay

/-- `ConstantBackoff`: a fixed delay for every attempt index. -/
def ConstantBackoff (delay : ℤ) : ℤ → ℤ := fun _ => delay

/-! ## The interceptor pipeline -/

/-- The outgoing wire request. -/
structure WireRequest where
  method : String
  url : String
  headers : List (String × String)
deriving Repr, DecidableEq

/-- The inbound wire response. -/
structure WireResponse where
  status : ℤ
  headers : List (String × String)
deriving Repr, DecidableEq

/-- A transport decorated with optional request and response hooks.  A
hook returns either a failure or the (possibly mutated in place) value it
was given. -/
structure InterceptorTransport where
  Base : Option (WireRequest → Except String WireResponse)
  RequestInterceptor : Option (WireRequest → Except String WireRequest)
  ResponseInterceptor : Option (WireResponse → Except String WireResponse)

/-- What one round trip produced: the result, the number of invocations of
the underlying transport, and whether the response body was closed by the
decorator. -/
structure RoundTripResult where
  result : Except String WireResponse
  baseCalls : Nat
  bodyClosed : Bool
deriving Repr, DecidableEq

/-- `InterceptorTransport.RoundTrip`: run the request hook, delegate to
the underlying transport (or the package default transport `defaultT`),
then run the response hook, closing the response body when that hook
fails. -/
def InterceptorTransport.RoundTrip (t : InterceptorTransport)
    (defaultT : WireRequest → Except String WireResponse)
    (req : WireRequest) : RoundTripResult :=
  let afterReqHook : Except String WireRequest :=
    match t.RequestInterceptor with
    | some f => f req
    | none => Except.ok req
  match afterReqHook with
  | Except.error e => { result := Except.error e, baseCalls := 0, bodyClosed := false }
  | Except.ok req2 =>
    let base := t.Base.getD defaultT
    match base req2 with
    | Except.error e => { result := Except.error e, baseCalls := 1, bodyClosed := false }
    | Except.ok resp =>
      match t.ResponseInterceptor with
      | none => { result := Except.ok resp, baseCalls := 1, bodyClosed := false }
      | some g =>
        match g resp with
        | Except.error e =>
            { result := Except.error e, baseCalls := 1, bodyClosed := true }
        | Except.ok resp2 =>
            { result := Except.ok resp2, baseCalls := 1, bodyClosed := false }

/-! ## The middleware chain -/

/-- A middleware transforms the request builder. -/
abbrev Middleware := Request → Request

/-- `Chain` combines several middleware into one, applying them in list
order. -/
def Chain (ms : List Middleware) : Middleware :=
  fun r => ms.foldl (fun acc m => m acc) r

/-- `Request.Use` applies middleware to the request, in order. -/
def Request.Use (r : Request) (ms : List Middleware) : Request :=
  ms.foldl (fun acc m => m acc) r

/-- `UserAgentMiddleware` sets a custom user agent header. -/
def UserAgentMiddleware (ua : String) : Middleware :=
  fun r => r.Header "User-Agent" ua

/-- `TimeoutMiddleware` sets a timeout for the request. -/
def TimeoutMiddleware (t : ℤ) : Middleware :=
  fun r => r.Timeout t

/-- `HeadersMiddleware` sets several headers on the request. -/
def HeadersMiddleware (hs : List (String × String)) : Middleware :=
  fun r => r.Headers hs

/-! ## Response accessors -/

/-- `Response.Error` returns the carried error. -/
def Response.Error (r : Response) : Option String := r.err

/-- `Response.Bytes` returns the body bytes, or the carried error with a
nil slice. -/
def Response.Bytes (r : Response) : Option String × Option String :=
  match r.err with
  | some e => (none, some e)
  | none => (some r.body, none)

/-- `Response.StringAcc` (source name `String`) returns the body as a
string, or the carried error with an empty string. -/
def Response.StringAcc (r : Response) : String × Option String :=
  match r.err with
  | some e => ("", some e)
  | none => (r.body, none)

/-- `Response.JSON` decodes the body with the standard-library decoder
`dec`, returning the resulting error if any; a carried error is returned
as is, without decoding. -/
def Response.JSON (r : Response) (dec : String → Except String Unit) : Option String :=
  match r.err with
  | some e => some e
  | none =>
    match dec r.body with
    | Except.error e => some ("decode JSON: " ++ e)
    | Except.ok _ => none

/-- `Response.BodyReader` returns a reader over the body bytes, modelled
by the bytes it would yield, or the carried error. -/
def Response.BodyReader (r : Response) : Option String × Option String :=
  match r.err with
  | some e => (none, some e)
  | none => (some r.body, none)

/-- `Response.SaveToFile` writes the body to a file; the write actually
performed is returned as the second component (filename and contents), and
a carried error suppresses the write. -/
def Response.SaveToFile (r : Response) (filename : String) :
    Option String × Option (String × String) :=
  match r.err with
  | some e => (some e, none)
  | none => (none, some (filename, r.body))

/-! ## Basic lemmas about truncation -/

theorem truncZ_nonneg {q : ℚ} (h : 0 ≤ q) : 0 ≤ truncZ q := by
  rw [truncZ, if_pos h]
  exact Int.floor_nonneg.mpr h

theorem truncZ_le {q : ℚ} (h : 0 ≤ q) : (truncZ q : ℚ) ≤ q := by
  rw [truncZ, if_pos h]
  exact Int.floor_le q

theorem addJitter_nonneg {v : ℚ} {delay : ℤ} (h0 : 0 ≤ delay) (hv0 : 0 ≤ v) :
    0 ≤ addJitter v delay := by
  have hd : (0 : ℚ) ≤ (delay : ℚ) := by exact_mod_cast h0
  have hq : (0 : ℚ) ≤ v * (delay : ℚ) * (3 / 10) :=
    mul_nonneg (mul_nonneg hv0 hd) (by norm_num)
  have h2 := truncZ_nonneg hq
  unfold addJitter
  omega

theorem addJitter_bound {v : ℚ} {delay B : ℤ} (h0 : 0 ≤ delay) (hB : delay ≤ B)
    (hv0 : 0 ≤ v) (hv1 : v ≤ 1) : 10 * addJitter v delay ≤ 13 * B := by
  have hd : (0 : ℚ) ≤ (delay : ℚ) := by exact_mod_cast h0
  have hq : (0 : ℚ) ≤ v * (delay : ℚ) * (3 / 10) :=
    mul_nonneg (mul_nonneg hv0 hd) (by norm_num)
  have h1 : (truncZ (v * (delay : ℚ) * (3 / 10)) : ℚ) ≤ v * (delay : ℚ) * (3 / 10) :=
    truncZ_le hq
  have h5 : (10 : ℚ) * (truncZ (v * (delay : ℚ) * (3 / 10)) : ℚ) ≤ 3 * (delay : ℚ) := by
    nlinarith
  have h6 : 10 * truncZ (v * (delay : ℚ) * (3 / 10)) ≤ 3 * delay := by exact_mod_cast h5
  unfold addJitter
  omega

theorem clampedNext_bounds {d : ℤ} {mult : ℚ} {maxD B : ℤ}
    (hd : 0 ≤ d) (hmul : 0 ≤ mult) (hM : 0 ≤ maxD) (hMB : maxD ≤ B) :
    0 ≤ (if maxD < truncZ ((d : ℚ) * mult) then maxD else truncZ ((d : ℚ) * mult))
    ∧ (if maxD < truncZ ((d : ℚ) * mult) then maxD else truncZ ((d : ℚ) * mult)) ≤ B := by
  have hdq : (0 : ℚ) ≤ (d : ℚ) := by exact_mod_cast hd
  have h2 := truncZ_nonneg (mul_nonneg hdq hmul)
  refine ⟨?_, ?_⟩ <;> split <;> omega

/-- Loop invariant behind C1: every recorded wait is at most 13/10 of the
bound `B`, provided `B` dominates both the delay ceiling and the delay
entering the loop. -/
theorem retryLoop_waits_bound (cfg : RetryConfig) (exec : Nat → Response)
    (done : Nat → Bool) (ctxErr : String) (u : Nat → ℚ) (B : ℤ)
    (hmul : 0 ≤ cfg.Multiplier) (hM : 0 ≤ cfg.MaxDelay) (hMB : cfg.MaxDelay ≤ B)
    (hu : ∀ k, 0 ≤ u k ∧ u k ≤ 1) :
    ∀ (fuel attempt : Nat) (delay : ℤ) (ws : List ℤ),
      0 ≤ delay → delay ≤ B → (∀ w ∈ ws, 10 * w ≤ 13 * B) →
      ∀ w ∈ (retryLoop cfg exec done ctxErr u fuel attempt delay ws).waits,
        10 * w ≤ 13 * B := by
  intro fuel
  induction fuel with
  | zero =>
    intro attempt delay ws _ _ hws w hw
    exact hws w hw
  | succ n ih =>
    intro attempt delay ws h0 h1 hws w hw
    have hB0 : 0 ≤ B := le_trans hM hMB
    simp only [retryLoop] at hw
    split at hw
    · exact hws w hw
    · split at hw
      · exact hws w hw
      · split at hw
        · exact hws w hw
        · have hd0 : 0 ≤ (if cfg.Jitter then addJitter (u attempt) delay else delay) := by
            split
            · exact addJitter_nonneg h0 (hu attempt).1
            · exact h0
          have hdB : 10 * (if cfg.Jitter then addJitter (u attempt) delay else delay)
              ≤ 13 * B := by
            split
            · exact addJitter_bound h0 h1 (hu attempt).1 (hu attempt).2
            · omega
          have hnext := clampedNext_bounds hd0 hmul hM hMB
          refine ih (attempt + 1) _ _ hnext.1 hnext.2 ?_ w hw
          intro w2 hw2
          rcases List.mem_append.mp hw2 with h | h
          · exact hws w2 h
          · rcases List.mem_singleton.mp h with rfl
            exact hdB

/-! ## Claim theorems -/

/-- C1 counterexample: with a configured base delay of 20ns and a delay
ceiling of 10ns (jitter off, multiplier 1), the single wait actually
performed is 20ns, which exceeds the ceiling: the clamp is applied only
after a wait completes, never to the initial delay. -/
theorem claim_C1_counterexample :
    (doWithRetry Request.new
      (some { MaxAttempts := 2, Delay := 20, MaxDelay := 10, Multiplier := 1,
              Jitter := false, RetryIf := defaultRetryIf })
      (fun _ => { StatusCode := 500, body := "", err := none })
      (fun _ => false) "ctx" (fun _ => 0)).waits = [20]
    ∧ ¬ ((20 : ℤ) ≤ 10) := by
  exact ⟨by decide, by decide⟩

/-- C1 amended: every delay actually waited is at most 13/10 of the
larger of the configured base delay and the delay ceiling (stated
integrally: ten times the wait is at most thirteen times that maximum),
for nonnegative configuration values and jitter draws in the unit
interval. -/
theorem claim_C1_amended (r : Request) (cfg : RetryConfig) (exec : Nat → Response)
    (done : Nat → Bool) (ctxErr : String) (u : Nat → ℚ)
    (hD : 0 ≤ cfg.Delay) (hM : 0 ≤ cfg.MaxDelay) (hmul : 0 ≤ cfg.Multiplier)
    (hu : ∀ k, 0 ≤ u k ∧ u k ≤ 1) :
    ∀ w ∈ (doWithRetry r (some cfg) exec done ctxErr u).waits,
      10 * w ≤ 13 * max cfg.Delay cfg.MaxDelay := by
  intro w hw
  rcases hr : r.err with _ | e
  · rcases hb : readBodyErr r.body with _ | e2
    · simp only [doWithRetry, hr, hb, Option.getD_some] at hw
      exact retryLoop_waits_bound cfg exec done ctxErr u (max cfg.Delay cfg.MaxDelay)
        hmul hM (le_max_right _ _) hu cfg.MaxAttempts.toNat 0 cfg.Delay []
        hD (le_max_left _ _) (by intro w2 hw2; exact absurd hw2 (List.not_mem_nil w2)) w hw
    · simp only [doWithRetry, hr, hb] at hw
      exact absurd hw (List.not_mem_nil w)
  · simp only [doWithRetry, hr] at hw
    exact absurd hw (List.not_mem_nil w)

/-- C1 amended, witnessed at a concrete configuration whose base delay
20ns exceeds its ceiling 10ns: the wait of 20ns satisfies the amended
bound 10 * 20 ≤ 13 * max 20 10. -/
theorem claim_C1_amended_witness :
    10 * (20 : ℤ) ≤ 13 * max (20 : ℤ) 10 :=
  claim_C1_amended Request.new
    { MaxAttempts := 2, Delay := 20, MaxDelay := 10, Multiplier := 1,
      Jitter := false, RetryIf := defaultRetryIf }
    (fun _ => { StatusCode := 500, body := "", err := none })
    (fun _ => false) "ctx" (fun _ => 0)
    (by decide) (by decide) (by norm_num)
    (fun k => ⟨le_refl 0, by norm_num⟩)
    20 (by decide)

/-- C2 counterexample: with a maximum attempt count of 0 and a
non-poisoned request, the engine performs zero attempts and returns no
response at all, not exactly one attempt. -/
theorem claim_C2_counterexample :
    Request.new.err = none
    ∧ (doWithRetry Request.new
        (some { MaxAttempts := 0, Delay := 1, MaxDelay := 10, Multiplier := 2,
                Jitter := false, RetryIf := defaultRetryIf })
        (fun _ => { StatusCode := 500, body := "", err := none })
        (fun _ => false) "ctx" (fun _ => 0)).attempts = 0
    ∧ (doWithRetry Request.new
        (some { MaxAttempts := 0, Delay := 1, MaxDelay := 10, Multiplier := 2,
                Jitter := false, RetryIf := defaultRetryIf })
        (fun _ => { StatusCode := 500, body := "", err := none })
        (fun _ => false) "ctx" (fun _ => 0)).resp = none := by
  exact ⟨rfl, by decide, by decide⟩

/-- C2 amended: for a non-poisoned request with a readable body, a
maximum attempt count of exactly 1 yields exactly one attempt returning
that attempt's response; a count of 0 or below yields zero attempts and
no response; and with a positive count, a first outcome rejected by the
retry predicate also yields exactly one attempt. -/
theorem claim_C2_amended (r : Request) (cfg : RetryConfig) (exec : Nat → Response)
    (done : Nat → Bool) (ctxErr : String) (u : Nat → ℚ)
    (hr : r.err = none) (hb : readBodyErr r.body = none) :
    (cfg.MaxAttempts = 1 →
      doWithRetry r (some cfg) exec done ctxErr u
        = { resp := some (exec 0), attempts := 1, waits := [] })
    ∧ (cfg.MaxAttempts ≤ 0 →
      doWithRetry r (some cfg) exec done ctxErr u
        = { resp := none, attempts := 0, waits := [] })
    ∧ (1 ≤ cfg.MaxAttempts → cfg.RetryIf (exec 0) = false →
      doWithRetry r (some cfg) exec done ctxErr u
        = { resp := some (exec 0), attempts := 1, waits := [] }) := by
  refine ⟨fun h1 => ?_, fun h2 => ?_, fun h3 h4 => ?_⟩
  · have ht : cfg.MaxAttempts.toNat = 1 := by omega
    by_cases hc : cfg.RetryIf (exec 0) = false <;>
      simp [doWithRetry, hr, hb, ht, retryLoop, hc]
  · have ht : cfg.MaxAttempts.toNat = 0 := by omega
    simp [doWithRetry, hr, hb, ht, retryLoop]
  · obtain ⟨k, hk⟩ : ∃ k, cfg.MaxAttempts.toNat = k + 1 :=
      ⟨cfg.MaxAttempts.toNat - 1, by omega⟩
    simp [doWithRetry, hr, hb, hk, retryLoop, h4]

/-- C2 amended, witnessed at a concrete one-attempt configuration. -/
theorem claim_C2_amended_witness :
    doWithRetry Request.new
      (some { MaxAttempts := 1, Delay := 5, MaxDelay := 10, Multiplier := 2,
              Jitter := false, RetryIf := defaultRetryIf })
      (fun _ => { StatusCode := 200, body := "", err := none })
      (fun _ => false) "ctx" (fun _ => 0)
    = { resp := some { StatusCode := 200, body := "", err := none },
        attempts := 1, waits := [] } :=
  (claim_C2_amended Request.new _ _ _ _ _ rfl rfl).1 rfl

/-- Loop lemma behind C7: if every outcome up to attempt `k` is
retryable, cancellation loses the race at the first `k` waits and wins it
at wait `k`, and the loop still has room after attempt `k`, then the loop
stops right there: the response of attempt `k` is returned with its error
replaced by the cancellation cause, after exactly `k + 1` attempts. -/
theorem retryLoop_cancelled (cfg : RetryConfig) (exec : Nat → Response)
    (done : Nat → Bool) (ctxErr : String) (u : Nat → ℚ) :
    ∀ (k fuel attempt : Nat) (delay : ℤ) (ws : List ℤ),
      (∀ j, j ≤ k → cfg.RetryIf (exec (attempt + j)) = true) →
      (∀ j, j < k → done (attempt + j) = false) →
      done (attempt + k) = true →
      k + 1 < fuel →
      (retryLoop cfg exec done ctxErr u fuel attempt delay ws).resp
          = some { exec (attempt + k) with err := some ctxErr }
      ∧ (retryLoop cfg exec done ctxErr u fuel attempt delay ws).attempts
          = attempt + k + 1 := by
  intro k
  induction k with
  | zero =>
    intro fuel attempt delay ws hret hnc hc hf
    obtain ⟨n, rfl⟩ : ∃ n, fuel = n + 1 := ⟨fuel - 1, by omega⟩
    have h1 : cfg.RetryIf (exec attempt) = true := by simpa using hret 0 (Nat.le_refl 0)
    have hc0 : done attempt = true := by simpa using hc
    have hn : ¬ (n = 0) := by omega
    simp [retryLoop, h1, hc0, hn]
  | succ m ih =>
    intro fuel attempt delay ws hret hnc hc hf
    obtain ⟨n, rfl⟩ : ∃ n, fuel = n + 1 := ⟨fuel - 1, by omega⟩
    have h1 : cfg.RetryIf (exec attempt) = true := by simpa using hret 0 (Nat.zero_le _)
    have hd0 : done attempt = false := by simpa using hnc 0 (Nat.succ_pos m)
    have hn : ¬ (n = 0) := by omega
    have hret2 : ∀ j, j ≤ m → cfg.RetryIf (exec ((attempt + 1) + j)) = true := by
      intro j hj
      have h := hret (j + 1) (by omega)
      have e : attempt + (j + 1) = (attempt + 1) + j := by omega
      rwa [e] at h
    have hnc2 : ∀ j, j < m → done ((attempt + 1) + j) = false := by
      intro j hj
      have h := hnc (j + 1) (by omega)
      have e : attempt + (j + 1) = (attempt + 1) + j := by omega
      rwa [e] at h
    have hc2 : done ((attempt + 1) + m) = true := by
      have e : attempt + (m + 1) = (attempt + 1) + m := by omega
      rwa [e] at hc
    have hf2 : m + 1 < n := by omega
    have e3 : attempt + (m + 1) = (attempt + 1) + m := by omega
    rw [e3]
    simp [retryLoop, h1, hd0, hn]
    exact ih n (attempt + 1) _ _ hret2 hnc2 hc2 hf2

/-- C7: if the execution context is cancelled during the wait after
attempt `k` (and not before, with all outcomes so far retryable and the
loop not yet at its last attempt), `DoWithRetry` returns attempt `k`'s
response with its error replaced by the cancellation cause, after exactly
`k + 1` attempts; in particular cancellation during the first wait yields
one attempt, at most two in total. -/
theorem claim_C7_cancellation (r : Request) (cfg : RetryConfig) (exec : Nat → Response)
    (done : Nat → Bool) (ctxErr : String) (u : Nat → ℚ) (k : Nat)
    (hr : r.err = none) (hb : readBodyErr r.body = none)
    (hret : ∀ j, j ≤ k → cfg.RetryIf (exec j) = true)
    (hnc : ∀ j, j < k → done j = false)
    (hc : done k = true)
    (hk : (k : ℤ) + 1 < cfg.MaxAttempts) :
    (doWithRetry r (some cfg) exec done ctxErr u).resp
        = some { exec k with err := some ctxErr }
    ∧ (doWithRetry r (some cfg) exec done ctxErr u).attempts = k + 1
    ∧ (doWithRetry r (some cfg) exec done ctxErr u).attempts ≤ k + 2 := by
  have hf : k + 1 < cfg.MaxAttempts.toNat := by omega
  have main := retryLoop_cancelled cfg exec done ctxErr u k cfg.MaxAttempts.toNat
      0 cfg.Delay []
      (by intro j hj; simpa using hret j hj)
      (by intro j hj; simpa using hnc j hj)
      (by simpa using hc) hf
  simp only [doWithRetry, hr, hb, Option.getD_some]
  refine ⟨by simpa using main.1, by simpa using main.2, by simp [main.2]⟩

/-- C7, witnessed with cancellation winning the first wait: one attempt,
the 500 response returned with the cancellation cause as its error. -/
theorem claim_C7_cancellation_witness :
    (doWithRetry Request.new
      (some { MaxAttempts := 3, Delay := 5, MaxDelay := 100, Multiplier := 2,
              Jitter := false, RetryIf := defaultRetryIf })
      (fun _ => { StatusCode := 500, body := "", err := none })
      (fun _ => true) "context canceled" (fun _ => 0)).resp
      = some { StatusCode := 500, body := "", err := some "context canceled" }
    ∧ (doWithRetry Request.new
      (some { MaxAttempts := 3, Delay := 5, MaxDelay := 100, Multiplier := 2,
              Jitter := false, RetryIf := defaultRetryIf })
      (fun _ => { StatusCode := 500, body := "", err := none })
      (fun _ => true) "context canceled" (fun _ => 0)).attempts = 1 :=
  ⟨(claim_C7_cancellation Request.new _ _ _ _ _ 0 rfl rfl
      (fun _ _ => by decide) (fun j hj => absurd hj (Nat.not_lt_zero j))
      rfl (by decide)).1,
   (claim_C7_cancellation Request.new _ _ _ _ _ 0 rfl rfl
      (fun _ _ => by decide) (fun j hj => absurd hj (Nat.not_lt_zero j))
      rfl (by decide)).2.1⟩

/-- C3: when the caller supplies no retry configuration, `DoWithRetry`
behaves as with the default configuration, whose predicate is
`defaultRetryIf`; that predicate holds exactly when the outcome carries a
transport-level error, or the status code is at least 500, or the status
code is exactly 429. -/
theorem claim_C3_default_retry_predicate :
    (∀ r exec done ctxErr u,
      doWithRetry r none exec done ctxErr u
        = doWithRetry r (some DefaultRetryConfig) exec done ctxErr u)
    ∧ DefaultRetryConfig.RetryIf = defaultRetryIf
    ∧ (∀ resp : Response, defaultRetryIf resp = true ↔
        (resp.err.isSome = true ∨ 500 ≤ resp.StatusCode ∨ resp.StatusCode = 429)) := by
  refine ⟨fun r exec done ctxErr u => rfl, rfl, fun resp => ?_⟩
  rcases h : resp.err with _ | e <;> simp [defaultRetryIf, h]

/-- C4 counterexample: with base 100ms (in nanoseconds), multiplier 1.5
and cap 1s, the code returns 100ms at index 1 while the claimed formula
base times multiplier to the index gives 150ms: the code truncates the
power to a whole number before multiplying by the base. -/
theorem claim_C4_counterexample :
    ExponentialBackoff 100000000 (3 / 2) 1000000000 1 = 100000000
    ∧ ExponentialBackoffSpec 100000000 (3 / 2) 1000000000 1 = 150000000
    ∧ ((100000000 : ℚ) ≠ 150000000) := by
  refine ⟨by norm_num [ExponentialBackoff, truncZ],
    by norm_num [ExponentialBackoffSpec, min_def], by norm_num⟩

/-- C4 amended: the function returned by `ExponentialBackoff` yields the
base times the truncated power, clamped at the cap; index 0 returns
exactly the base whenever the base does not exceed the cap; and the
concrete sequence for base 100ms, multiplier 2, cap 1s is as claimed. -/
theorem claim_C4_amended :
    (∀ base mult cap i, ExponentialBackoff base mult cap i
        = min (base * truncZ (mult ^ i)) cap)
    ∧ (∀ base mult cap, base ≤ cap → ExponentialBackoff base mult cap 0 = base)
    ∧ (([0, 1, 2, 3, 4, 5] : List ℤ).map (ExponentialBackoff 100000000 2 1000000000)
        = [100000000, 200000000, 400000000, 800000000, 1000000000, 1000000000]) := by
  refine ⟨fun base mult cap i => ?_, fun base mult cap h => ?_,
    by norm_num [ExponentialBackoff, truncZ, List.map]⟩
  · show (if cap < base * truncZ (mult ^ i) then cap else base * truncZ (mult ^ i))
        = min (base * truncZ (mult ^ i)) cap
    generalize base * truncZ (mult ^ i) = X
    rw [min_def]
    split <;> split <;> omega
  · have h1 : truncZ ((1 : ℚ)) = 1 := by norm_num [truncZ]
    show (if cap < base * truncZ (mult ^ (0 : ℤ)) then cap
          else base * truncZ (mult ^ (0 : ℤ))) = base
    rw [zpow_zero, h1, mul_one, if_neg (not_lt.mpr h)]

/-- C4 amended, witnessed at a concrete input. -/
theorem claim_C4_amended_witness :
    (100 : ℤ) ≤ 200 ∧ ExponentialBackoff 100 2 200 0 = 100 :=
  ⟨by decide, claim_C4_amended.2.1 100 2 200 (by decide)⟩

/-- C5: a poisoned request surfaces its stored error from both execution
entry points with zero transport invocations and zero attempts, and every
builder operation leaves it unchanged. -/
theorem claim_C5_poisoned (r : Request) (e : String) (h : r.err = some e) :
    (∀ env, doContext env r = ({ StatusCode := 0, body := "", err := some e }, 0))
    ∧ (∀ config exec done ctxErr u,
        doWithRetry r config exec done ctxErr u
          = { resp := some { StatusCode := 0, body := "", err := some e },
              attempts := 0, waits := [] })
    ∧ (∀ m, r.Method m = r) ∧ (∀ u2, r.URL u2 = r) ∧ (∀ c, r.Client c = r)
    ∧ (∀ t, r.Timeout t = r) ∧ (∀ k v, r.Header k v = r)
    ∧ (∀ hs, r.Headers hs = r) ∧ (∀ k v, r.QueryParam k v = r)
    ∧ (∀ ps, r.QueryParams ps = r) ∧ (∀ b, r.Body b = r)
    ∧ (∀ s, r.BodyString s = r) ∧ (∀ s, r.BodyBytes s = r)
    ∧ (∀ enc, r.BodyJSON enc = r) ∧ (∀ s, r.BodyForm s = r) := by
  have hs : r.err.isSome = true := by rw [h]; rfl
  refine ⟨fun env => by simp [doContext, h],
    fun config exec done ctxErr u => by simp [doWithRetry, h],
    fun m => by simp [Request.Method, hs],
    fun u2 => by simp [Request.URL, hs],
    fun c => by simp [Request.Client, hs],
    fun t => by simp [Request.Timeout, hs],
    fun k v => by simp [Request.Header, hs],
    fun hs2 => by simp [Request.Headers, hs],
    fun k v => by simp [Request.QueryParam, hs],
    fun ps => by simp [Request.QueryParams, hs],
    fun b => by simp [Request.Body, hs],
    fun s => by simp [Request.BodyString, hs],
    fun s => by simp [Request.BodyBytes, hs],
    fun enc => by simp [Request.BodyJSON, hs],
    fun s => by simp [Request.BodyForm, hs]⟩

/-- C5, witnessed at a concrete poisoned request. -/
theorem claim_C5_poisoned_witness :
    doContext
      { parseURL := fun _ => Except.ok (),
        newRequest := fun _ _ => Except.ok (),
        run := fun _ _ => Except.ok (200, Except.ok "hi") }
      { Request.new with err := some "boom" }
      = ({ StatusCode := 0, body := "", err := some "boom" }, 0)
    ∧ Request.Method { Request.new with err := some "boom" } "POST"
        = { Request.new with err := some "boom" }
    ∧ doWithRetry { Request.new with err := some "boom" } none
        (fun _ => { StatusCode := 200, body := "", err := none })
        (fun _ => false) "ctx" (fun _ => 0)
      = { resp := some { StatusCode := 0, body := "", err := some "boom" },
          attempts := 0, waits := [] } :=
  ⟨(claim_C5_poisoned _ "boom" rfl).1 _,
   (claim_C5_poisoned _ "boom" rfl).2.2.1 "POST",
   (claim_C5_poisoned _ "boom" rfl).2.1 none _ _ _ _⟩

/-- C6: a failing request hook aborts the round trip with its error and
the underlying transport is never invoked; a failing response hook leaves
the transport invoked exactly once, closes the response body, and returns
the hook error instead of the response. -/
theorem claim_C6_interceptor_errors :
    (∀ (t : InterceptorTransport) defaultT req f e,
      t.RequestInterceptor = some f → f req = Except.error e →
      t.RoundTrip defaultT req
        = { result := Except.error e, baseCalls := 0, bodyClosed := false })
    ∧ (∀ (t : InterceptorTransport) defaultT req f req2 g resp e,
      t.RequestInterceptor = some f → f req = Except.ok req2 →
      (t.Base.getD defaultT) req2 = Except.ok resp →
      t.ResponseInterceptor = some g → g resp = Except.error e →
      t.RoundTrip defaultT req
        = { result := Except.error e, baseCalls := 1, bodyClosed := true }) := by
  constructor
  · intro t defaultT req f e hf hfe
    simp [InterceptorTransport.RoundTrip, hf, hfe]
  · intro t defaultT req f req2 g resp e hf hfo hb hg hge
    simp [InterceptorTransport.RoundTrip, hf, hfo, hb, hg, hge]

/-- C6, witnessed at concrete transports and hooks. -/
theorem claim_C6_interceptor_errors_witness :
    InterceptorTransport.RoundTrip
      { Base := some (fun _ => Except.ok { status := 200, headers := [] }),
        RequestInterceptor := some (fun _ => Except.error "req-hook"),
        ResponseInterceptor := none }
      (fun _ => Except.ok { status := 200, headers := [] })
      { method := "GET", url := "u", headers := [] }
      = { result := Except.error "req-hook", baseCalls := 0, bodyClosed := false }
    ∧ InterceptorTransport.RoundTrip
        { Base := some (fun _ => Except.ok { status := 200, headers := [] }),
          RequestInterceptor := some (fun rq => Except.ok rq),
          ResponseInterceptor := some (fun _ => Except.error "resp-hook") }
        (fun _ => Except.ok { status := 200, headers := [] })
        { method := "GET", url := "u", headers := [] }
      = { result := Except.error "resp-hook", baseCalls := 1, bodyClosed := true } :=
  ⟨claim_C6_interceptor_errors.1 _ _ _ _ _ rfl rfl,
   claim_C6_interceptor_errors.2 _ _ _ _ _ _
     { status := 200, headers := [] } _ rfl rfl rfl rfl rfl⟩

/-- C8: `Chain` applies middleware in list order, left to right, each
exactly once; mutations made by earlier middleware are passed to the
later ones, and `Use` agrees with `Chain`. -/
theorem claim_C8_chain_order :
    (∀ r, Chain [] r = r)
    ∧ (∀ (m : Middleware) ms r, Chain (m :: ms) r = Chain ms (m r))
    ∧ (∀ ms1 ms2 r, Chain (ms1 ++ ms2) r = Chain ms2 (Chain ms1 r))
    ∧ (∀ (m1 m2 m3 : Middleware) r, Chain [m1, m2, m3] r = m3 (m2 (m1 r)))
    ∧ (∀ r ms, Request.Use r ms = Chain ms r)
    ∧ (∀ ua t r, Chain [UserAgentMiddleware ua, TimeoutMiddleware t] r
        = (r.Header "User-Agent" ua).Timeout t) := by
  refine ⟨fun r => rfl, fun m ms r => rfl, fun ms1 ms2 r => ?_,
    fun m1 m2 m3 r => rfl, fun r ms => rfl, fun ua t r => rfl⟩
  simp [Chain, List.foldl_append]

/-- C9: when a per-request timeout is set, execution uses a freshly built
client keeping only the original transport and the new timeout; the
cookie jar and the redirect policy of a custom client are dropped.
Moreover `doContext` consults the exchange only through that client. -/
theorem claim_C9_timeout_fresh_client (r : Request) (h : 0 < r.timeout) :
    effectiveClient r
      = { transport := r.client.transport, timeout := r.timeout,
          jar := none, checkRedirect := none }
    ∧ (effectiveClient r).jar = none
    ∧ (effectiveClient r).checkRedirect = none
    ∧ (∀ env1 env2 : HttpEnv, env1.parseURL = env2.parseURL →
        env1.newRequest = env2.newRequest →
        env1.run (effectiveClient r) r = env2.run (effectiveClient r) r →
        doContext env1 r = doContext env2 r) := by
  have he : effectiveClient r
      = { transport := r.client.transport, timeout := r.timeout,
          jar := none, checkRedirect := none } := by
    rw [effectiveClient, if_pos h]
  refine ⟨he, by rw [he], by rw [he], ?_⟩
  intro env1 env2 h1 h2 h3
  simp only [doContext, h1, h2, h3]

/-- C9, witnessed at a concrete request carrying a customized client. -/
theorem claim_C9_timeout_fresh_client_witness :
    effectiveClient
      { Request.new with
          timeout := 5,
          client := { transport := some 3, timeout := 7,
                      jar := some 1, checkRedirect := some 2 } }
      = { transport := some 3, timeout := 5, jar := none, checkRedirect := none } :=
  (claim_C9_timeout_fresh_client _ (by decide)).1

/-- C10: every body accessor of a response carrying an error returns
exactly that stored error and produces no data: no bytes, an empty
string, no decode, no reader, no file write. -/
theorem claim_C10_error_accessors (r : Response) (e : String) (h : r.err = some e) :
    r.Bytes = (none, some e)
    ∧ r.StringAcc = ("", some e)
    ∧ (∀ dec, r.JSON dec = some e)
    ∧ r.BodyReader = (none, some e)
    ∧ (∀ fn, r.SaveToFile fn = (some e, none)) := by
  refine ⟨?_, ?_, fun dec => ?_, ?_, fun fn => ?_⟩ <;>
    simp [Response.Bytes, Response.StringAcc, Response.JSON,
      Response.BodyReader, Response.SaveToFile, h]

/-- C10, witnessed at a concrete failed response. -/
theorem claim_C10_error_accessors_witness :
    Response.Bytes { StatusCode := 0, body := "", err := some "boom" }
      = (none, some "boom")
    ∧ Response.JSON { StatusCode := 0, body := "", err := some "boom" }
        (fun _ => Except.ok ()) = some "boom"
    ∧ Response.SaveToFile { StatusCode := 0, body := "", err := some "boom" } "f.txt"
        = (some "boom", none) :=
  ⟨(claim_C10_error_accessors _ "boom" rfl).1,
   (claim_C10_error_accessors _ "boom" rfl).2.2.1 _,
   (claim_C10_error_accessors _ "boom" rfl).2.2.2.2 _⟩

end RQ
